import Mathlib

/-!
Verification of the HealthGuard decision-and-delivery core.

This file gives a shallow embedding, in Lean 4, of the parts of the
HealthGuard repository that the specification's claims are about:

* `app/layers/decision.py` — the rule engine (`evaluate_rules`, the `RULES`
  threshold table) and the rule/AI decision fusion (`combine_decisions`);
* `app/layers/delivery.py` — `DeliveryEngine.deliver` with its per-severity
  action sets, the delivery receipt and the mandatory database writes;
* `app/layers/agent.py` — the `EventQueue` (push / get_pending / size) and
  the pipeline's delivery guard;
* `app/layers/ingestion.py` — the ephemeral-artifact registry
  (`delete_immediately`, `cleanup_expired`).

Numeric vital values and anomaly scores (Python floats holding small decimal
constants) are modelled as rationals `ℚ`.  Python dicts keyed by fixed string
keys become structures with `Option` fields where the source uses `.get` with
a default.  External effects (Telegram, TTS, SQLite) are modelled by an
explicit environment of call-site outcomes and an emitted trace of database
operations, so that "exactly one write per invocation" is a statement about
the trace.  All definitions are executable.
-/

namespace HealthGuard

/-! ## Decision layer: `app/layers/decision.py` -/

/-- Rendering of a rational value inside a human-readable message
(stand-in for Python f-string interpolation of a float). -/
def ratStr (q : ℚ) : String :=
  if q.den = 1 then toString q.num else toString q.num ++ "/" ++ toString q.den

/-- Structure `RuleResult` from `decision.py`: one threshold breach. -/
structure RuleResult where
  triggered : Bool
  severity : Nat        -- 1=critical, 2=warning, 3=info
  metric : String
  value : ℚ
  threshold : ℚ
  message : String
deriving Repr, DecidableEq

/-! The `RULES` threshold table of `decision.py`, one constant per entry. -/

def RULES_bp_systolic_critical : ℚ := 180
def RULES_bp_systolic_warning : ℚ := 150
def RULES_bp_systolic_low_critical : ℚ := 80
def RULES_bp_diastolic_critical : ℚ := 120
def RULES_bp_diastolic_warning : ℚ := 100
def RULES_bp_diastolic_low_critical : ℚ := 50
def RULES_glucose_critical_high : ℚ := 400
def RULES_glucose_warning_high : ℚ := 250
def RULES_glucose_critical_low : ℚ := 50
def RULES_glucose_warning_low : ℚ := 70
def RULES_heart_rate_critical_high : ℚ := 150
def RULES_heart_rate_warning_high : ℚ := 120
def RULES_heart_rate_critical_low : ℚ := 40
def RULES_heart_rate_warning_low : ℚ := 50
def RULES_temperature_critical_high : ℚ := 104
def RULES_temperature_warning_high : ℚ := mkRat 2030 20
def RULES_temperature_critical_low : ℚ := 95
def RULES_temperature_warning_low : ℚ := mkRat 1930 20
def RULES_oxygen_saturation_critical_low : ℚ := 90
def RULES_oxygen_saturation_warning_low : ℚ := 93
def RULES_pain_level_critical : ℚ := 9
def RULES_pain_level_warning : ℚ := 7

/-- A vitals snapshot: the metrics `evaluate_rules` looks up, each either
present or absent.  (The source accepts a bare number or a
`value`/`unit` wrapper per metric; both shapes reduce to the numeric value
used here.) -/
structure Vitals where
  bp_systolic : Option ℚ
  bp_diastolic : Option ℚ
  glucose : Option ℚ
  heart_rate : Option ℚ
  temperature : Option ℚ
  oxygen_saturation : Option ℚ
  pain_level : Option ℚ
deriving Repr, DecidableEq

def emptyVitals : Vitals := ⟨none, none, none, none, none, none, none⟩

/-- Stable insertion of a trigger into a severity-sorted list: equal
severities keep their original relative order, matching Python's stable
`list.sort`. -/
def insertBySeverity (x : RuleResult) : List RuleResult → List RuleResult
  | [] => [x]
  | y :: ys => if y.severity ≤ x.severity then y :: insertBySeverity x ys else x :: y :: ys

/-- Embedding of `results.sort(key=lambda r: r.severity)` — stable ascending sort. -/
def sortBySeverity : List RuleResult → List RuleResult
  | [] => []
  | x :: xs => insertBySeverity x (sortBySeverity xs)

/-- Function `evaluate_rules(vitals)` from `decision.py`: the per-metric if/elif
chains, in source order, followed by the stable severity sort.  Note that
the source checks no `warning_low` branch for `heart_rate` or
`temperature` (and no low branch for `bp_diastolic`), although `RULES`
declares those thresholds. -/
def evaluate_rules (vitals : Vitals) : List RuleResult :=
  let results : List RuleResult :=
    (match vitals.bp_systolic with
     | none => []
     | some v =>
       if v ≥ RULES_bp_systolic_critical then
         [⟨true, 1, "bp_systolic", v, 180, "CRITICAL: Systolic BP " ++ ratStr v ++ " mmHg >= 180. Hypertensive crisis."⟩]
       else if v ≥ RULES_bp_systolic_warning then
         [⟨true, 2, "bp_systolic", v, 150, "WARNING: Systolic BP " ++ ratStr v ++ " mmHg >= 150. Elevated."⟩]
       else if v ≤ RULES_bp_systolic_low_critical then
         [⟨true, 1, "bp_systolic", v, 80, "CRITICAL: Systolic BP " ++ ratStr v ++ " mmHg <= 80. Hypotension."⟩]
       else []) ++
    (match vitals.bp_diastolic with
     | none => []
     | some v =>
       if v ≥ RULES_bp_diastolic_critical then
         [⟨true, 1, "bp_diastolic", v, 120, "CRITICAL: Diastolic BP " ++ ratStr v ++ " mmHg >= 120."⟩]
       else if v ≥ RULES_bp_diastolic_warning then
         [⟨true, 2, "bp_diastolic", v, 100, "WARNING: Diastolic BP " ++ ratStr v ++ " mmHg >= 100."⟩]
       else []) ++
    (match vitals.glucose with
     | none => []
     | some v =>
       if v ≥ RULES_glucose_critical_high then
         [⟨true, 1, "glucose", v, 400, "CRITICAL: Blood glucose " ++ ratStr v ++ " mg/dL >= 400. Diabetic emergency."⟩]
       else if v ≥ RULES_glucose_warning_high then
         [⟨true, 2, "glucose", v, 250, "WARNING: Blood glucose " ++ ratStr v ++ " mg/dL >= 250. Hyperglycemia."⟩]
       else if v ≤ RULES_glucose_critical_low then
         [⟨true, 1, "glucose", v, 50, "CRITICAL: Blood glucose " ++ ratStr v ++ " mg/dL <= 50. Severe hypoglycemia."⟩]
       else if v ≤ RULES_glucose_warning_low then
         [⟨true, 2, "glucose", v, 70, "WARNING: Blood glucose " ++ ratStr v ++ " mg/dL <= 70. Low glucose."⟩]
       else []) ++
    (match vitals.heart_rate with
     | none => []
     | some v =>
       if v ≥ RULES_heart_rate_critical_high then
         [⟨true, 1, "heart_rate", v, 150, "CRITICAL: Heart rate " ++ ratStr v ++ " bpm >= 150. Tachycardia."⟩]
       else if v ≥ RULES_heart_rate_warning_high then
         [⟨true, 2, "heart_rate", v, 120, "WARNING: Heart rate " ++ ratStr v ++ " bpm >= 120."⟩]
       else if v ≤ RULES_heart_rate_critical_low then
         [⟨true, 1, "heart_rate", v, 40, "CRITICAL: Heart rate " ++ ratStr v ++ " bpm <= 40. Bradycardia."⟩]
       else []) ++
    (match vitals.temperature with
     | none => []
     | some v =>
       if v ≥ RULES_temperature_critical_high then
         [⟨true, 1, "temperature", v, 104, "CRITICAL: Temperature " ++ ratStr v ++ " F >= 104. High fever."⟩]
       else if v ≥ RULES_temperature_warning_high then
         [⟨true, 2, "temperature", v, mkRat 2030 20, "WARNING: Temperature " ++ ratStr v ++ " F >= 101.5. Fever."⟩]
       else if v ≤ RULES_temperature_critical_low then
         [⟨true, 1, "temperature", v, 95, "CRITICAL: Temperature " ++ ratStr v ++ " F <= 95. Hypothermia."⟩]
       else []) ++
    (match vitals.oxygen_saturation with
     | none => []
     | some v =>
       if v ≤ RULES_oxygen_saturation_critical_low then
         [⟨true, 1, "oxygen_saturation", v, 90, "CRITICAL: SpO2 " ++ ratStr v ++ " pct <= 90. Severe hypoxia."⟩]
       else if v ≤ RULES_oxygen_saturation_warning_low then
         [⟨true, 2, "oxygen_saturation", v, 93, "WARNING: SpO2 " ++ ratStr v ++ " pct <= 93. Low oxygen."⟩]
       else []) ++
    (match vitals.pain_level with
     | none => []
     | some v =>
       if v ≥ RULES_pain_level_critical then
         [⟨true, 1, "pain_level", v, 9, "CRITICAL: Pain level " ++ ratStr v ++ " of 10. Severe pain."⟩]
       else if v ≥ RULES_pain_level_warning then
         [⟨true, 2, "pain_level", v, 7, "WARNING: Pain level " ++ ratStr v ++ " of 10. Significant pain."⟩]
       else [])
  sortBySeverity results

/-- The `ai_decision` dict handed to `combine_decisions` (and, inside a
fused decision, to `DeliveryEngine.deliver`).  Each field mirrors a dict
key read with `.get`, hence `Option`. -/
structure AIDecision where
  decision : Option String
  anomaly_score : Option ℚ
  reason : Option String
  model : Option String
deriving Repr, DecidableEq

/-- The dict returned by `combine_decisions`. -/
structure FusedDecision where
  final_decision : String
  final_severity : Nat
  reason : String
  source : String
  ai_agreed : Bool
  rule_triggers : List RuleResult
  ai_decision : AIDecision
deriving Repr, DecidableEq

/-- Embedding of `min((r.severity for r in rule_results), default=99)`. -/
def minSeverity (rule_results : List RuleResult) : Nat :=
  match rule_results.map (·.severity) with
  | [] => 99
  | s :: ss => ss.foldl min s

/-- The note `combine_decisions` appends to the reason when the AI
corroborates a warning-level trigger. -/
def aiAnomalyNote (a : ℚ) : String := " (AI anomaly score: " ++ ratStr a ++ ")"

/-- Placeholder head element for the (unreachable) `rule_results[0]` access
on an empty list. -/
def noTrigger : RuleResult := ⟨false, 0, "", 0, 0, ""⟩

/-- Function `combine_decisions(rule_results, ai_decision)` from `decision.py`. -/
def combine_decisions (rule_results : List RuleResult) (ai_decision : AIDecision) : FusedDecision :=
  let worst_rule_severity := minSeverity rule_results
  let ai_anomaly := ai_decision.anomaly_score.getD 0
  let ai_action := ai_decision.decision.getD ("normal")
  let ai_agreed := ai_action == "alert" || ai_action == "escalate"
  if worst_rule_severity = 1 then
    { final_decision := "alert"
      final_severity := 1
      reason := (rule_results.headD noTrigger).message
      source := "rule_engine"
      ai_agreed := ai_agreed
      rule_triggers := rule_results
      ai_decision := ai_decision }
  else if worst_rule_severity = 2 then
    { final_decision := "alert"
      final_severity := if ai_anomaly > 7 / 10 then 1 else 2
      reason := (rule_results.headD noTrigger).message ++
        (if ai_anomaly > 4 / 10 then aiAnomalyNote ai_anomaly else "")
      source := if ai_anomaly > 4 / 10 then "rule_engine+ai" else "rule_engine"
      ai_agreed := ai_agreed
      rule_triggers := rule_results
      ai_decision := ai_decision }
  else if ai_anomaly > 7 / 10 then
    { final_decision := "alert"
      final_severity := 2
      reason := ai_decision.reason.getD ("AI detected anomaly pattern")
      source := "ai_engine"
      ai_agreed := true
      rule_triggers := []
      ai_decision := ai_decision }
  else if ai_anomaly > 4 / 10 then
    { final_decision := "monitor"
      final_severity := 3
      reason := ai_decision.reason.getD ("Mild anomaly detected")
      source := "ai_engine"
      ai_agreed := true
      rule_triggers := []
      ai_decision := ai_decision }
  else
    { final_decision := "normal"
      final_severity := 3
      reason := "All vitals within normal range. No anomalies detected."
      source := "combined"
      ai_agreed := true
      rule_triggers := []
      ai_decision := ai_decision }

/-- The pipeline's delivery guard in `agent.py`:
`combined["final_decision"] in ("alert", "escalate")`. -/
def shouldDeliver (d : FusedDecision) : Bool :=
  d.final_decision == "alert" || d.final_decision == "escalate"

/-- Triggers sorted ascending by severity, as `evaluate_rules` hands them
to `combine_decisions`. -/
def SevSorted (rs : List RuleResult) : Prop :=
  List.Chain' (fun a b => a.severity ≤ b.severity) rs

instance (rs : List RuleResult) : Decidable (SevSorted rs) := by
  unfold SevSorted; infer_instance

/-! ### Helper lemmas about `minSeverity` -/

theorem foldl_min_le_init (l : List Nat) (a : Nat) : l.foldl min a ≤ a := by
  induction l generalizing a with
  | nil => exact Nat.le_refl a
  | cons y ys ih =>
    calc ys.foldl min (min a y) ≤ min a y := ih (min a y)
    _ ≤ a := Nat.min_le_left a y

theorem foldl_min_le_mem (l : List Nat) (a x : Nat) (hx : x ∈ l) : l.foldl min a ≤ x := by
  induction l generalizing a with
  | nil => cases hx
  | cons y ys ih =>
    rcases List.mem_cons.mp hx with h | h
    · subst h
      calc ys.foldl min (min a x) ≤ min a x := foldl_min_le_init ys (min a x)
      _ ≤ x := Nat.min_le_right a x
    · exact ih (min a y) h

theorem le_foldl_min (l : List Nat) (a n : Nat) (ha : n ≤ a) (hl : ∀ x ∈ l, n ≤ x) :
    n ≤ l.foldl min a := by
  induction l generalizing a with
  | nil => exact ha
  | cons y ys ih =>
    exact ih (min a y) (Nat.le_min.mpr ⟨ha, hl y (List.mem_cons_self y ys)⟩)
      (fun x hx => hl x (List.mem_cons_of_mem y hx))

theorem minSeverity_le_of_mem (rs : List RuleResult) (t : RuleResult) (ht : t ∈ rs) :
    minSeverity rs ≤ t.severity := by
  cases rs with
  | nil => cases ht
  | cons r rest =>
    unfold minSeverity
    simp only [List.map_cons]
    rcases List.mem_cons.mp ht with h | h
    · subst h; exact foldl_min_le_init _ _
    · exact foldl_min_le_mem _ _ _ (List.mem_map_of_mem (·.severity) h)

theorem le_minSeverity (rs : List RuleResult) (n : Nat) (h99 : n ≤ 99)
    (h : ∀ t ∈ rs, n ≤ t.severity) : n ≤ minSeverity rs := by
  cases rs with
  | nil => exact h99
  | cons r rest =>
    unfold minSeverity
    simp only [List.map_cons]
    refine le_foldl_min _ _ _ (h r (List.mem_cons_self r rest)) ?_
    intro x hx
    rcases List.mem_map.mp hx with ⟨t, ht, rfl⟩
    exact h t (List.mem_cons_of_mem r ht)

theorem minSeverity_eq_one (r : RuleResult) (rest : List RuleResult)
    (hvalid : ∀ t ∈ r :: rest, 1 ≤ t.severity)
    (hcrit : ∃ t ∈ r :: rest, t.severity = 1) :
    minSeverity (r :: rest) = 1 := by
  obtain ⟨t, ht, h1⟩ := hcrit
  refine Nat.le_antisymm ?_ ?_
  · calc minSeverity (r :: rest) ≤ t.severity := minSeverity_le_of_mem _ t ht
    _ = 1 := h1
  · exact le_minSeverity _ 1 (by omega) hvalid

/-! ### Claims about `combine_decisions` -/

/-- C1.  If the (severity-sorted) trigger list contains a severity-1
trigger, then for every AI classification with an anomaly score in
`[0, 1]` and any decision label, `combine_decisions` returns
`final_decision = "alert"`, `final_severity = 1`, reason equal to the first
trigger's message, and `source = "rule_engine"`; the AI classification is
recorded unchanged in the result, so it cannot change the outcome. -/
theorem combine_critical_rule_dominates (r : RuleResult) (rest : List RuleResult)
    (ai : AIDecision) (a : ℚ)
    (hsorted : SevSorted (r :: rest))
    (hvalid : ∀ t ∈ r :: rest, 1 ≤ t.severity)
    (hcrit : ∃ t ∈ r :: rest, t.severity = 1)
    (hscore : ai.anomaly_score = some a) (h0 : 0 ≤ a) (h1 : a ≤ 1) :
    (combine_decisions (r :: rest) ai).final_decision = "alert" ∧
    (combine_decisions (r :: rest) ai).final_severity = 1 ∧
    (combine_decisions (r :: rest) ai).reason = r.message ∧
    (combine_decisions (r :: rest) ai).source = "rule_engine" ∧
    (combine_decisions (r :: rest) ai).ai_decision = ai := by
  have hmin : minSeverity (r :: rest) = 1 := minSeverity_eq_one r rest hvalid hcrit
  simp [combine_decisions, hmin]

/-- Witness for C1 at a concrete critical trigger and AI score 0.1. -/
theorem combine_critical_rule_dominates_witness :
    (combine_decisions
      [⟨true, 1, "bp_systolic", 185, 180, "m1"⟩]
      ⟨some ("normal"), some (1 / 10), some ("r"), none⟩).final_severity = 1 :=
  (combine_critical_rule_dominates ⟨true, 1, "bp_systolic", 185, 180, "m1"⟩ []
    ⟨some ("normal"), some (1 / 10), some ("r"), none⟩ (1 / 10)
    (by constructor) (by decide) (by decide) rfl (by norm_num) (by norm_num)).2.1

/-- C3.  If the minimum severity of a non-empty, severity-sorted trigger
list is 2, then `combine_decisions` escalates `final_severity` to 1
exactly when the AI's anomaly score exceeds 0.7 (and keeps 2 otherwise,
in particular on every score up to 0.4 and on every score in (0.4, 0.7]);
the reason is the worst (first) trigger's message with the AI-anomaly note
appended exactly when the score exceeds 0.4, and the source records AI
corroboration exactly when the score exceeds 0.4. -/
theorem combine_warning_escalation (r : RuleResult) (rest : List RuleResult)
    (ai : AIDecision) (a : ℚ)
    (hsorted : SevSorted (r :: rest))
    (hmin : minSeverity (r :: rest) = 2)
    (hscore : ai.anomaly_score = some a) :
    (a > 7 / 10 → (combine_decisions (r :: rest) ai).final_severity = 1) ∧
    (a ≤ 7 / 10 → (combine_decisions (r :: rest) ai).final_severity = 2) ∧
    (combine_decisions (r :: rest) ai).reason =
      r.message ++ (if a > 4 / 10 then aiAnomalyNote a else "") ∧
    (combine_decisions (r :: rest) ai).source =
      (if a > 4 / 10 then "rule_engine+ai" else "rule_engine") := by
  refine ⟨fun h => ?_, fun h => ?_, ?_, ?_⟩
  · simp [combine_decisions, hmin, hscore, if_pos h]
  · simp [combine_decisions, hmin, hscore, if_neg (not_lt.mpr h)]
  · simp [combine_decisions, hmin, hscore]
  · simp [combine_decisions, hmin, hscore]

/-- Witness for C3 at a concrete warning trigger and AI score 0.75. -/
theorem combine_warning_escalation_witness :
    (combine_decisions
      [⟨true, 2, "bp_systolic", 155, 150, "m2"⟩]
      ⟨some ("alert"), some (3 / 4), some ("r"), none⟩).final_severity = 1 :=
  (combine_warning_escalation ⟨true, 2, "bp_systolic", 155, 150, "m2"⟩ []
    ⟨some ("alert"), some (3 / 4), some ("r"), none⟩ (3 / 4)
    (by constructor) (by decide) rfl).1 (by norm_num)

/-- C4.  With an empty trigger list, `combine_decisions` returns
alert/severity 2/source "ai_engine" when the anomaly score exceeds 0.7,
monitor/severity 3 when the score is in (0.4, 0.7], and
normal/severity 3/source "combined" when the score is at most 0.4. -/
theorem combine_no_rules (ai : AIDecision) (a : ℚ) (hscore : ai.anomaly_score = some a) :
    (a > 7 / 10 →
      (combine_decisions [] ai).final_decision = "alert" ∧
      (combine_decisions [] ai).final_severity = 2 ∧
      (combine_decisions [] ai).source = "ai_engine") ∧
    (a ≤ 7 / 10 → a > 4 / 10 →
      (combine_decisions [] ai).final_decision = "monitor" ∧
      (combine_decisions [] ai).final_severity = 3) ∧
    (a ≤ 4 / 10 →
      (combine_decisions [] ai).final_decision = "normal" ∧
      (combine_decisions [] ai).final_severity = 3 ∧
      (combine_decisions [] ai).source = "combined") := by
  have hmin : minSeverity ([] : List RuleResult) = 99 := rfl
  refine ⟨fun h7 => ?_, fun h7 h4 => ?_, fun h4 => ?_⟩
  · simp [combine_decisions, hmin, hscore, if_pos h7]
  · simp [combine_decisions, hmin, hscore, if_neg (not_lt.mpr h7), if_pos h4]
  · have h7 : ¬ (7 / 10 : ℚ) < a := not_lt.mpr (le_trans h4 (by norm_num))
    simp [combine_decisions, hmin, hscore, if_neg h7, if_neg (not_lt.mpr h4)]

/-- Witness for C4 at AI score 0.55 (monitor branch). -/
theorem combine_no_rules_witness :
    (combine_decisions [] ⟨some ("monitor"), some (11 / 20), some ("r"), none⟩).final_decision =
      "monitor" :=
  ((combine_no_rules ⟨some ("monitor"), some (11 / 20), some ("r"), none⟩ (11 / 20) rfl).2.1
    (by norm_num) (by norm_num)).1

/-- C9 (implicit).  A warning-level worst trigger alone always yields
`final_decision = "alert"` — never "monitor" or "normal" — so the
pipeline's guard `final_decision in ("alert", "escalate")` always invokes
the Delivery Engine on a warning-level rule trigger, for every AI
classification. -/
theorem combine_warning_always_alert (r : RuleResult) (rest : List RuleResult)
    (ai : AIDecision)
    (hmin : minSeverity (r :: rest) = 2) :
    (combine_decisions (r :: rest) ai).final_decision = "alert" ∧
    shouldDeliver (combine_decisions (r :: rest) ai) = true := by
  constructor
  · simp [combine_decisions, hmin]
  · simp [shouldDeliver, combine_decisions, hmin]

/-- Witness for C9 at a concrete warning trigger and AI score 0. -/
theorem combine_warning_always_alert_witness :
    shouldDeliver
      (combine_decisions [⟨true, 2, "glucose", 260, 250, "m3"⟩]
        ⟨some ("normal"), some 0, some ("r"), none⟩) = true :=
  (combine_warning_always_alert ⟨true, 2, "glucose", 260, 250, "m3"⟩ []
    ⟨some ("normal"), some 0, some ("r"), none⟩ (by decide)).2

/-- C2.  The rule engine does NOT implement the warning-low thresholds
that its own `RULES` table declares for `heart_rate` (50) and
`temperature` (96.5): a heart rate of 45 bpm (strictly between the
critical-low 40 and the declared warning-low 50) and a temperature of
96 F (strictly between the critical-low 95 and the declared warning-low
96.5) each produce NO trigger at all, although the claim (and the
threshold table in both spec and `RULES`) requires a severity-2 warning
trigger.  `evaluate_rules` simply has no `warning_low` branch for these
two metrics. -/
theorem evaluate_rules_missing_warning_low :
    evaluate_rules { emptyVitals with heart_rate := some 45 } = [] ∧
    evaluate_rules { emptyVitals with temperature := some 96 } = [] ∧
    RULES_heart_rate_critical_low < 45 ∧ (45 : ℚ) ≤ RULES_heart_rate_warning_low ∧
    RULES_temperature_critical_low < 96 ∧ (96 : ℚ) ≤ RULES_temperature_warning_low := by
  refine ⟨?_, ?_, by decide, by decide, by decide, by decide⟩ <;> rfl

/-! ## Delivery layer: `app/layers/delivery.py` and `app/core/clients.py` -/

/-- Result dict of `TelegramClient.send_message` / `send_audio`:
the `ok` flag and HTTP status code. -/
structure SendResult where
  ok : Bool
  status_code : Nat
deriving Repr, DecidableEq

/-- Outcomes of the external collaborators for one `deliver` invocation:
whether the Telegram channel is configured, the network outcome of each
send call site (used only when the channel is configured), and the audio
returned by `venice_tts` (`none` models synthesis failure — the source
catches every exception and returns `None`). -/
structure DeliveryEnv where
  telegram_enabled : Bool
  net_alert : SendResult     -- patient alert send_message in _deliver_critical
  net_audio : SendResult     -- send_audio of the TTS clip in _deliver_critical
  net_doctor : SendResult    -- doctor-notification send_message in _deliver_critical
  net_warning : SendResult   -- send_message in _deliver_warning
  tts_audio : Option (List Nat)
deriving Repr, DecidableEq

/-- Embedding of `TelegramClient.send_message`/`send_audio`: an unconfigured client
returns `ok=False, status_code=0` without touching the network; otherwise
the call returns the network outcome.  Exceptions are caught in the
source and also yield `ok=False`, so the call is total. -/
def tgSend (enabled : Bool) (net : SendResult) : SendResult :=
  if enabled then net else ⟨false, 0⟩

/-- The receipt dict built by `DeliveryEngine.deliver`.  Keys that the
source adds only on some paths (`telegram_ok`, `telegram_response`,
`tts_audio`) are `Option` fields, `none` meaning the key is absent. -/
structure Receipt where
  type : String
  patient_id_hash : String
  severity : Nat
  source : String
  actions_taken : List String
  raw_data_retained : Bool
  telegram_ok : Option Bool
  telegram_response : Option String
  tts_audio : Option (List Nat)
deriving Repr, DecidableEq

/-- Row written by `Database.record_alert`. -/
structure AlertRecord where
  patient_id : String
  severity : Nat
  message : String
  action_taken : String
  webhook_response : String
  tts_generated : Bool
deriving Repr, DecidableEq

/-- Entry written by `Database.audit` from `deliver`. -/
structure AuditEntry where
  type : String
  patient_id : String
  severity : Nat
  reason : String
  source : String
  model_used : String
  anomaly_score : ℚ
  actions_taken : List String
  telegram_ok : Bool
  tts_generated : Bool
  raw_data_retained : Bool
deriving Repr, DecidableEq

/-- One database write issued by the delivery engine. -/
inductive DbOp
  | record_alert (rec : AlertRecord)
  | audit (entry : AuditEntry)
deriving Repr, DecidableEq

def DbOp.isRecordAlert : DbOp → Bool
  | .record_alert _ => true
  | .audit _ => false

def DbOp.isAudit : DbOp → Bool
  | .record_alert _ => false
  | .audit _ => true

def countRecordAlert : List DbOp → Nat
  | [] => 0
  | op :: rest => (if op.isRecordAlert then 1 else 0) + countRecordAlert rest

def countAudit : List DbOp → Nat
  | [] => 0
  | op :: rest => (if op.isAudit then 1 else 0) + countAudit rest

/-- Method `DeliveryEngine._deliver_critical`: patient Telegram alert, TTS spoken
alert (audio forwarded to Telegram when synthesis succeeds), then the
doctor notification, whose send result the source discards. -/
def deliverCritical (env : DeliveryEnv) (receipt : Receipt) : Receipt :=
  let tg_result := tgSend env.telegram_enabled env.net_alert
  let receipt := { receipt with
    telegram_ok := some tg_result.ok
    telegram_response := some (toString tg_result.status_code ++ " " ++ toString tg_result.ok)
    actions_taken := receipt.actions_taken ++ ["telegram_alert"] }
  let receipt :=
    match env.tts_audio with
    | some audio =>
      -- send_audio result is discarded by the source
      let _ := tgSend env.telegram_enabled env.net_audio
      { receipt with
        actions_taken := receipt.actions_taken ++ ["tts_alert"]
        tts_audio := some audio }
    | none => receipt
  let _ := tgSend env.telegram_enabled env.net_doctor  -- result discarded
  { receipt with actions_taken := receipt.actions_taken ++ ["doctor_notify"] }

/-- Method `DeliveryEngine._deliver_warning`. -/
def deliverWarning (env : DeliveryEnv) (receipt : Receipt) : Receipt :=
  let tg_result := tgSend env.telegram_enabled env.net_warning
  { receipt with
    telegram_ok := some tg_result.ok
    telegram_response := some (toString tg_result.status_code ++ " " ++ toString tg_result.ok)
    actions_taken := receipt.actions_taken ++ ["telegram_warning"] }

/-- Method `DeliveryEngine._deliver_info`. -/
def deliverInfo (receipt : Receipt) : Receipt :=
  { receipt with actions_taken := receipt.actions_taken ++ ["logged_only"] }

/-- Method `DeliveryEngine.deliver(patient_id, decision)`: builds the receipt,
runs the per-severity action set, then unconditionally issues the
`record_alert` write and the audit write.  Returns the receipt together
with the trace of database writes. -/
def deliver (env : DeliveryEnv) (patient_id : String) (decision : FusedDecision) :
    Receipt × List DbOp :=
  let severity := decision.final_severity
  let reason := decision.reason
  let source := decision.source
  let receipt0 : Receipt :=
    { type := "delivery"
      patient_id_hash := patient_id.take 8 ++ "..."
      severity := severity
      source := source
      actions_taken := []
      raw_data_retained := false
      telegram_ok := none
      telegram_response := none
      tts_audio := none }
  let receipt :=
    if severity = 1 then deliverCritical env receipt0
    else if severity = 2 then deliverWarning env receipt0
    else deliverInfo receipt0
  let actions_str := String.intercalate (", ") receipt.actions_taken
  let webhook_resp := receipt.telegram_response.getD ("")
  let tts_gen := receipt.actions_taken.contains ("tts_alert")
  let ops : List DbOp :=
    [DbOp.record_alert
      { patient_id := patient_id
        severity := severity
        message := reason
        action_taken := actions_str
        webhook_response := webhook_resp
        tts_generated := tts_gen },
     DbOp.audit
      { type := "severity_" ++ toString severity ++ "_delivery"
        patient_id := patient_id.take 8 ++ "..."
        severity := severity
        reason := reason.take 200
        source := source
        model_used := decision.ai_decision.model.getD ("rule_engine")
        anomaly_score := decision.ai_decision.anomaly_score.getD 0
        actions_taken := receipt.actions_taken
        telegram_ok := receipt.telegram_ok.getD false
        tts_generated := tts_gen
        raw_data_retained := false }]
  (receipt, ops)

/-- C5.  Every `deliver` invocation — for every severity and every
combination of collaborator outcomes (channel unconfigured or failing,
speech synthesis returning no audio) — issues exactly one `record_alert`
write and exactly one audit write; no individual action failure can block
them, since every external call is total and the two writes are
unconditional. -/
theorem deliver_writes_exactly_once (env : DeliveryEnv) (patient_id : String)
    (decision : FusedDecision) :
    countRecordAlert (deliver env patient_id decision).2 = 1 ∧
    countAudit (deliver env patient_id decision).2 = 1 :=
  ⟨rfl, rfl⟩

/-- C6 (amended).  Every receipt carries `raw_data_retained = false`, and
lists each attempted action by name in `actions_taken`; a severity-1
delivery with the notification channel unconfigured still lists the
doctor-notify attempt, and the receipt carries the single channel-level
`telegram_ok = false` flag (set by the patient notification).  The
receipt does NOT carry a per-action success flag for the doctor
notification — see the counterexample. -/
theorem deliver_receipt_properties (env : DeliveryEnv) (patient_id : String)
    (decision : FusedDecision) :
    (deliver env patient_id decision).1.raw_data_retained = false ∧
    (decision.final_severity = 1 → env.telegram_enabled = false →
      "doctor_notify" ∈ (deliver env patient_id decision).1.actions_taken ∧
      (deliver env patient_id decision).1.telegram_ok = some false) := by
  constructor
  · by_cases h1 : decision.final_severity = 1
    · cases h : env.tts_audio <;>
        simp [deliver, deliverCritical, h1, h]
    · by_cases h2 : decision.final_severity = 2 <;>
        simp [deliver, deliverCritical, deliverWarning, deliverInfo, h1, h2]
  · intro h1 hcfg
    cases h : env.tts_audio <;>
      simp [deliver, deliverCritical, tgSend, h1, hcfg, h]

/-- Witness for C6's amended claim: severity-1 delivery, channel
unconfigured, synthesis failing. -/
theorem deliver_receipt_properties_witness :
    "doctor_notify" ∈
      (deliver ⟨false, ⟨false, 0⟩, ⟨false, 0⟩, ⟨false, 0⟩, ⟨false, 0⟩, none⟩ ("patient-0001")
        ⟨"alert", 1, "m1", "rule_engine", false, [], ⟨none, none, none, none⟩⟩).1.actions_taken :=
  ((deliver_receipt_properties ⟨false, ⟨false, 0⟩, ⟨false, 0⟩, ⟨false, 0⟩, ⟨false, 0⟩, none⟩
    "patient-0001" ⟨"alert", 1, "m1", "rule_engine", false, [], ⟨none, none, none, none⟩⟩).2
    rfl rfl).1

/-- C6, counterexample to the claim as stated.  Two severity-1 deliveries
whose environments differ only in the outcome of the doctor-notify send
(`ok = true` versus `ok = false`, channel configured) produce IDENTICAL
receipts: the source discards the doctor-notify send result, so the
receipt does not record that action's own success flag, contrary to the
claim that every attempted action is recorded "together with its own
success flag". -/
theorem deliver_no_doctor_flag_counterexample :
    (deliver ⟨true, ⟨true, 200⟩, ⟨true, 200⟩, ⟨true, 200⟩, ⟨true, 200⟩, none⟩ ("patient-0001")
        ⟨"alert", 1, "m1", "rule_engine", false, [], ⟨none, none, none, none⟩⟩).1 =
    (deliver ⟨true, ⟨true, 200⟩, ⟨true, 200⟩, ⟨false, 500⟩, ⟨true, 200⟩, none⟩ ("patient-0001")
        ⟨"alert", 1, "m1", "rule_engine", false, [], ⟨none, none, none, none⟩⟩).1 ∧
    (tgSend true ⟨true, 200⟩).ok = true ∧ (tgSend true ⟨false, 500⟩).ok = false :=
  ⟨rfl, rfl, rfl⟩

/-! ## Event queue: `EventQueue` in `app/layers/agent.py`

The queue is a mutex-guarded Python list; `push` appends under the lock,
`get_pending` copies the list and clears it under the lock, `size` reads
the length under the lock.  The lock makes each operation atomic, so a
history of queue operations is a sequence and the state is the list. -/

/-- Structure `IngestedItem` from `app/layers/ingestion.py` (the queue's element
type). -/
structure IngestedItem where
  session_id : String
  input_type : String          -- "photo", "voice", "text", "vital"
  patient_id : String
  file_path : Option String
  raw_bytes : Option (List Nat)
  text : Option String
deriving Repr, DecidableEq

/-- State of `EventQueue`: the guarded list. -/
structure EventQueue where
  queue : List IngestedItem
deriving Repr, DecidableEq

namespace EventQueue

/-- Method `push(item)`: append under the lock. -/
def push (q : EventQueue) (item : IngestedItem) : EventQueue :=
  ⟨q.queue ++ [item]⟩

/-- Method `get_pending()`: atomically copy the contents and clear the list;
returns the drained items and the post-drain state. -/
def get_pending (q : EventQueue) : List IngestedItem × EventQueue :=
  (q.queue, ⟨[]⟩)

/-- Method `size()`. -/
def size (q : EventQueue) : Nat :=
  q.queue.length

/-- A sequence of pushes. -/
def pushAll (q : EventQueue) (items : List IngestedItem) : EventQueue :=
  items.foldl push q

end EventQueue

theorem pushAll_queue (q : EventQueue) (items : List IngestedItem) :
    (q.pushAll items).queue = q.queue ++ items := by
  induction items generalizing q with
  | nil => simp [EventQueue.pushAll]
  | cons x xs ih =>
    simp only [EventQueue.pushAll, List.foldl_cons] at *
    rw [ih]
    simp [EventQueue.push]

/-- C7.  A drain atomically detaches exactly the items present at drain
time and leaves the queue empty (`size = 0`); items pushed after the
drain are not in that drain's result (which is fixed at drain time) and
each appears, undamaged and exactly once, in the next drain: the next
drain returns precisely the list of post-drain pushes. -/
theorem eventQueue_drain_atomic (q : EventQueue) (later : List IngestedItem) :
    (q.get_pending).1 = q.queue ∧
    (q.get_pending).2.size = 0 ∧
    ((q.get_pending).2.pushAll later).get_pending.1 = later := by
  refine ⟨rfl, rfl, ?_⟩
  show ((⟨[]⟩ : EventQueue).pushAll later).queue = later
  rw [pushAll_queue]
  simp

/-- C10 (implicit).  `get_pending` returns the pending items in exactly
first-in-first-out push order: after a drain, pushing any sequence of
items makes the next drain return that sequence in order, so per-tick
processing and audit entries follow ingestion order. -/
theorem eventQueue_fifo_order (q : EventQueue) (pushed : List IngestedItem) :
    ((q.get_pending).2.pushAll pushed).get_pending.1 = pushed := by
  show ((⟨[]⟩ : EventQueue).pushAll pushed).queue = pushed
  rw [pushAll_queue]
  simp

/-! ## Ephemeral lifecycle: `app/layers/ingestion.py`

`_ephemeral_files` is a mutex-guarded dict `path -> expiry`; a dict holds
at most one entry per key, so deleting a key removes every entry with
that key.  The filesystem is a set of existing paths; `os.remove` is
guarded by `os.path.exists` and wrapped in try/except, so both deletion
paths are total (they never raise). -/

/-- The ephemeral state: the registry dict (as an association list with
unique keys) and the set of files on disk. -/
structure EphemeralState where
  files : List (String × ℚ)   -- path -> absolute expiry timestamp
  fs : List String            -- paths that exist on disk
deriving Repr, DecidableEq

/-- Dict lookup in `_ephemeral_files`. -/
def lookupExpiry : List (String × ℚ) → String → Option ℚ
  | [], _ => none
  | e :: es, p => if e.1 = p then some e.2 else lookupExpiry es p

/-- Embedding of `_ephemeral_files.pop(filepath, None)`: remove the key (a dict has at
most one entry per key). -/
def popKey : List (String × ℚ) → String → List (String × ℚ)
  | [], _ => []
  | e :: es, p => if e.1 = p then popKey es p else e :: popKey es p

/-- Embedding of the guarded file removal (`os.remove` behind an existence check, exceptions caught). -/
def osRemove (fs : List String) (p : String) : List String :=
  if p ∈ fs then fs.filter (fun q => q ≠ p) else fs

/-- The registry sweep inside `cleanup_expired`: drop every entry whose
expiry has elapsed (`now >= expiry`), collecting the dropped paths. -/
def sweepRegistry (now : ℚ) : List (String × ℚ) → List (String × ℚ) × List String
  | [] => ([], [])
  | e :: es =>
    let (kept, dropped) := sweepRegistry now es
    if now ≥ e.2 then (kept, e.1 :: dropped) else (e :: kept, dropped)

/-- Function `delete_immediately(filepath)`: pop the registry entry, then remove
the file if it exists; total (never raises). -/
def delete_immediately (s : EphemeralState) (filepath : String) : EphemeralState :=
  ⟨popKey s.files filepath, osRemove s.fs filepath⟩

/-- Function `cleanup_expired()`: drop every expired registry entry under the
lock, then remove each dropped path from disk; returns the new state and
the number of dropped entries. -/
def cleanup_expired (s : EphemeralState) (now : ℚ) : EphemeralState × Nat :=
  let (kept, dropped) := sweepRegistry now s.files
  (⟨kept, dropped.foldl osRemove s.fs⟩, dropped.length)

theorem popKey_of_absent (l : List (String × ℚ)) (p : String)
    (h : lookupExpiry l p = none) : popKey l p = l := by
  induction l with
  | nil => rfl
  | cons e es ih =>
    by_cases he : e.1 = p
    · simp [lookupExpiry, he] at h
    · simp only [lookupExpiry, if_neg he] at h
      simp [popKey, if_neg he, ih h]

theorem osRemove_of_absent (fs : List String) (p : String) (h : p ∉ fs) :
    osRemove fs p = fs := if_neg h

theorem lookupExpiry_popKey (l : List (String × ℚ)) (p q : String) (hne : q ≠ p) :
    lookupExpiry (popKey l p) q = lookupExpiry l q := by
  induction l with
  | nil => rfl
  | cons e es ih =>
    by_cases he : e.1 = p
    · have heq : ¬ e.1 = q := fun h => hne (h.symm.trans he)
      unfold popKey
      rw [if_pos he, ih]
      simp [lookupExpiry, heq]
    · unfold popKey
      rw [if_neg he]
      unfold lookupExpiry
      by_cases heq : e.1 = q
      · rw [if_pos heq, if_pos heq]
      · rw [if_neg heq, if_neg heq, ih]

theorem popKey_popKey (l : List (String × ℚ)) (p : String) :
    popKey (popKey l p) p = popKey l p := by
  induction l with
  | nil => rfl
  | cons e es ih =>
    by_cases he : e.1 = p <;> simp [popKey, he, ih]

theorem not_mem_osRemove (fs : List String) (p : String) : p ∉ osRemove fs p := by
  unfold osRemove
  by_cases h : p ∈ fs
  · rw [if_pos h]
    simp
  · rw [if_neg h]
    exact h

theorem lookupExpiry_sweepRegistry (l : List (String × ℚ)) (now : ℚ) (q : String) (t : ℚ)
    (hq : lookupExpiry l q = some t) (hlive : now < t) :
    lookupExpiry (sweepRegistry now l).1 q = some t := by
  induction l with
  | nil => simp [lookupExpiry] at hq
  | cons e es ih =>
    by_cases he : e.1 = q
    · simp only [lookupExpiry, if_pos he] at hq
      have ht2 : e.2 = t := Option.some_inj.mp hq
      have hkeep : ¬ t ≤ now := not_le.mpr hlive
      simp [sweepRegistry, lookupExpiry, he, ht2, hkeep]
    · simp only [lookupExpiry, if_neg he] at hq
      by_cases hdrop : now ≥ e.2 <;>
        simp [sweepRegistry, hdrop, lookupExpiry, he, ih hq]

/-- C8.  Both ephemeral deletion paths are idempotent no-ops where
nothing remains to delete: `delete_immediately` on a path absent from
the registry and from disk (for example, already removed by
`cleanup_expired` or by a prior delete) leaves the state unchanged and
never raises (the modelled operation is total); repeating a delete
changes nothing; a delete leaves every other path's registry entry
unchanged; and `cleanup_expired` keeps every unexpired entry intact. -/
theorem ephemeral_deletion_idempotent (s : EphemeralState) (p : String) (now : ℚ) :
    (lookupExpiry s.files p = none → p ∉ s.fs → delete_immediately s p = s) ∧
    delete_immediately (delete_immediately s p) p = delete_immediately s p ∧
    (∀ q, q ≠ p →
      lookupExpiry (delete_immediately s p).files q = lookupExpiry s.files q) ∧
    (∀ q t, lookupExpiry s.files q = some t → now < t →
      lookupExpiry (cleanup_expired s now).1.files q = some t) := by
  refine ⟨fun hreg hfs => ?_, ?_, fun q hq => ?_, fun q t hq ht => ?_⟩
  · unfold delete_immediately
    rw [popKey_of_absent s.files p hreg, osRemove_of_absent s.fs p hfs]
  · unfold delete_immediately
    rw [popKey_popKey]
    have : osRemove (osRemove s.fs p) p = osRemove s.fs p :=
      osRemove_of_absent _ p (not_mem_osRemove s.fs p)
    rw [this]
  · exact lookupExpiry_popKey s.files p q hq
  · show lookupExpiry (sweepRegistry now s.files).1 q = some t
    exact lookupExpiry_sweepRegistry s.files now q t hq ht

/-- Witness for C8: a registry holding `"a"` (expiry 100) after `"b"` was
already removed; deleting `"b"` is a no-op, and entry `"a"` survives a
sweep at time 50. -/
theorem ephemeral_deletion_idempotent_witness :
    delete_immediately ⟨[("a", 100)], ["a"]⟩ ("b") = ⟨[("a", 100)], ["a"]⟩ ∧
    lookupExpiry (cleanup_expired ⟨[("a", 100)], ["a"]⟩ 50).1.files ("a") = some 100 :=
  ⟨(ephemeral_deletion_idempotent ⟨[("a", 100)], ["a"]⟩ ("b") 50).1 rfl (by decide),
   (ephemeral_deletion_idempotent ⟨[("a", 100)], ["a"]⟩ ("b") 50).2.2.2 ("a") 100 rfl
     (by decide)⟩

end HealthGuard
